import Mathlib

/-!
Shallow embedding of `src/rpc/smartrewards.cpp` (SmartCash reward-query RPC
layer): the `smartrewards` command dispatcher and the `termrewards` listing.

Modelling conventions:
* C++ `int64_t` / `int` / `CAmount` values are `Int`; C++ `/` and `%` on
  integers are `Int.tdiv` / `Int.tmod` (truncation toward zero, sign of the
  dividend), which is the C++ semantics.
* `double` arithmetic (the amount formatter, `percent * 100.0`) is modelled
  with exact rationals `ℚ`; bit-level floating-point rounding is out of scope.
* The two guards (`cs_rewardsdb`, `cs_rewardscache`) and the external reward
  engine (`prewards`) are an explicit environment `RewardsEnv`; a run returns
  the list of observable events (lock attempts, store reads) together with the
  `UniValue` result or the thrown `JSONRPCError` / usage `runtime_error`.
* `UniValue` is modelled by `RVal`; `pushKV` order is the field-list order.
-/

namespace SmartRewards

/-- `COIN`: minor units per major unit (from `amount.h`, 10^8). -/
def COIN : Int := 100000000

/-- The amount formatter lambda defined identically at the top of both
`smartrewards` and `termrewards`:
`[](CAmount a) { return a / COIN + ( double(a % COIN) / COIN ); }`,
with C++ truncated division/modulus, the result as an exact rational. -/
def format (a : Int) : ℚ := ((Int.tdiv a COIN : Int) : ℚ) + ((Int.tmod a COIN : Int) : ℚ) / ((COIN : Int) : ℚ)

/-- The whole-unit part of an amount, following the spec wording
(§4.1: "Splits the integer into whole-unit and fractional-unit parts"). -/
def integerPartSpec (a : Int) : Int := a / COIN

/-- The fractional-unit part of an amount, following the spec wording. -/
def fractionalPartSpec (a : Int) : Int := a % COIN

/-- The spec formula for the formatter (§4.1, §8):
`integerPart(a) + fractionalPart(a)/unitConstant`. -/
def formatSpec (a : Int) : ℚ := ((integerPartSpec a : Int) : ℚ) + ((fractionalPartSpec a : Int) : ℚ) / ((COIN : Int) : ℚ)

/-- A SmartCash address (`CSmartAddress`); only its display string
(`ToString()`) is observable in this layer.  `Legacy` parsing and `IsValid`
live outside `src/` and are part of the environment. -/
structure CSmartAddress where
  addr : String
deriving DecidableEq, Repr

/-- One reward round (`CSmartRewardRound` from `smartrewards/rewards.h`,
which is outside `src/`): the fields and accessor methods read by
`smartrewards.cpp` are modelled as plain fields.  `payeeCount`,
`rewardBlocks` and `lastRoundBlock` stand for the externally defined
`GetPayeeCount()`, `GetRewardBlocks()` and `GetLastRoundBlock()`. -/
structure CSmartRewardRound where
  number : Int
  startBlockHeight : Int
  startBlockTime : Int
  endBlockHeight : Int
  endBlockTime : Int
  eligibleEntries : Int
  eligibleSmart : Int
  disqualifiedEntries : Int
  disqualifiedSmart : Int
  rewards : Int
  percent : ℚ
  nBlockPayees : Int
  nBlockInterval : Int
  payeeCount : Int
  rewardBlocks : Int
  lastRoundBlock : Int
deriving Repr

/-- One address entry (`CSmartRewardEntry`, outside `src/`):
`smartnodePaymentTxIsNull` is `smartnodePaymentTx.IsNull()` and
`isEligibleResult` is the externally defined `IsEligible()` predicate. -/
structure CSmartRewardEntry where
  id : CSmartAddress
  balance : Int
  balanceEligible : Int
  smartnodePaymentTxIsNull : Bool
  fActivated : Bool
  isEligibleResult : Bool
deriving Repr

/-- A materialized payout/snapshot result row (`CSmartRewardResultEntry`). -/
structure CSmartRewardResultEntry where
  entry : CSmartRewardEntry
  reward : Int
deriving Repr

/-- A fixed-term reward position (`CTermRewardEntry`, outside `src/`):
`address` is `GetAddress()`, `txHashHex` is `txHash.GetHex()`, `level` is
`GetLevel()`. -/
structure CTermRewardEntry where
  address : String
  txHashHex : String
  balance : Int
  level : String
  percent : ℚ
  expires : Int
deriving Repr

/-- Observable events of a query run: non-blocking guard acquisition
attempts (with their outcome) and reads of round / entry / result data. -/
inductive Event
  | tryLockDb (ok : Bool)
  | tryLockCache (ok : Bool)
  | readCurrentRound
  | readRounds
  | readPayouts (round : Int)
  | readRoundResults (round : Int)
  | readRewardEntry
  | readTermEntries
deriving DecidableEq, Repr

/-- JSON-RPC error codes used by this file (`rpc/protocol.h`). -/
inductive RPCErrorCode
  | RPC_INVALID_PARAMETER
  | RPC_DATABASE_ERROR
deriving DecidableEq, Repr

/-- A thrown failure: either the usage `std::runtime_error` (help text
elided) or a `JSONRPCError(code, message)`. -/
inductive RPCFailure
  | usage
  | rpcError (code : RPCErrorCode) (msg : String)
deriving DecidableEq, Repr

/-- The `UniValue` result values this layer builds. -/
inductive RVal
  | null
  | num (n : Int)
  | rat (q : ℚ)
  | str (s : String)
  | bool (b : Bool)
  | obj (fields : List (String × RVal))
  | arr (items : List RVal)
deriving Repr

/-- Key lookup in an object result (first matching key, as UniValue does). -/
def RVal.getKey : RVal → String → Option RVal
  | .obj fields, k => fields.lookup k
  | _, _ => none

/-- The environment a run observes: debug flag, engine sync state, whether
each `TRY_LOCK` would succeed, the reward engine's data (`prewards`), and
the consensus parameters read by the handlers.  `rewardRounds` is
`GetRewardRounds()` in its map-iteration order; `none` results model reads
whose C++ counterpart returns `false` (or an invalid address). -/
structure RewardsEnv where
  fDebug : Bool
  synced : Bool
  dbLockAvailable : Bool
  cacheLockAvailable : Bool
  currentRound : CSmartRewardRound
  rewardRounds : List CSmartRewardRound
  nRewardsPayoutStartDelay : Int
  nFirst_1_3_Round : Int
  rewardPayouts : Int → Option (List CSmartRewardResultEntry)
  rewardRoundResults : Int → Option (List CSmartRewardResultEntry)
  parseAddress : String → Option CSmartAddress
  rewardEntry : CSmartAddress → Option CSmartRewardEntry
  termEntries : Option (List CTermRewardEntry)

/-- Outcome of `std::stoi`. -/
inductive StoiResult
  | ok (n : Int)
  | invalidArgument
  | outOfRange
deriving DecidableEq, Repr

/-- C locale `isspace`, as skipped by the `strtol` underlying `std::stoi`. -/
def isCppSpace (c : Char) : Bool :=
  c = ' ' || c = '\t' || c = '\n' || c = '\x0b' || c = '\x0c' || c = '\r'

/-- Value of a nonempty decimal digit string. -/
def digitsToNat (ds : List Char) : Nat :=
  ds.foldl (fun n c => 10 * n + (c.toNat - '0'.toNat)) 0

/-- `std::stoi(s)` (base 10): skip leading whitespace, optional sign, then
the longest digit prefix; `invalid_argument` when no digits were consumed,
`out_of_range` when the value does not fit in a 32-bit `int`; trailing
non-digit characters are ignored. -/
def stoi (s : String) : StoiResult :=
  let cs := s.toList.dropWhile isCppSpace
  let signed : Bool × List Char :=
    match cs with
    | '-' :: rest => (true, rest)
    | '+' :: rest => (false, rest)
    | _ => (false, cs)
  let digits := signed.2.takeWhile Char.isDigit
  if digits.isEmpty then .invalidArgument
  else
    let mag : Int := (digitsToNat digits : Nat)
    let v : Int := if signed.1 then -mag else mag
    if v < -2147483648 ∨ 2147483647 < v then .outOfRange else .ok v

/-- `"Rewards database is busy..Try it again!"` (`smartrewards`, and the
cache guard in `termrewards`). -/
def busyMsg : String := "Rewards database is busy..Try it again!"

/-- The `termrewards` durable-store busy message. -/
def busyMsgTerm : String := "Rewards database is busy.  Try again"

/-- The not-synced message. -/
def staleMsg : String := "Rewards database is not up to date."

/-- The no-active-round message. -/
def noActiveMsg : String := "No active reward round available yet."

/-- The empty-history message. -/
def noFinishedMsg : String := "No finished reward round available yet."

/-- The payouts/snapshot fetch-failure message. -/
def fetchFailMsg : String := "Couldn\x27t fetch the list from the database."

/-- The round-range error string built by both `payouts` and `snapshot`:
`strprintf("Past SmartReward round required: 1 - %d ", current->number - 1)`. -/
def roundRangeErr (currentNumber : Int) : String :=
  "Past SmartReward round required: 1 - " ++ toString (currentNumber - 1) ++ " "

/-- The result object of the `current` command. -/
def currentObj (current : CSmartRewardRound) : RVal :=
  .obj [("rewards_cycle", .num current.number),
        ("start_blockheight", .num current.startBlockHeight),
        ("start_blocktime", .num current.startBlockTime),
        ("end_blockheight", .num current.endBlockHeight),
        ("end_blocktime", .num current.endBlockTime),
        ("eligible_addresses", .num (current.eligibleEntries - current.disqualifiedEntries)),
        ("eligible_smart", .rat (format (current.eligibleSmart - current.disqualifiedSmart))),
        ("disqualified_addresses", .num current.disqualifiedEntries),
        ("disqualified_smart", .rat (format current.disqualifiedSmart)),
        ("estimated_rewards", .rat (format current.rewards)),
        ("estimated_percent", .rat (current.percent * 100))]

/-- The nested payout-schedule object emitted for each history round. -/
def historyPayObj (nPayoutDelay : Int) (round : CSmartRewardRound) : RVal :=
  if round.payeeCount ≠ 0 then
    .obj [("firstBlock", .num (round.endBlockHeight + nPayoutDelay)),
          ("totalBlocks", .num round.rewardBlocks),
          ("lastBlock", .num round.lastRoundBlock),
          ("totalPayees", .num round.payeeCount),
          ("blockPayees", .num round.nBlockPayees),
          ("lastBlockPayees", .num (Int.tmod round.payeeCount round.nBlockPayees)),
          ("blockInterval", .num round.nBlockInterval)]
  else
    .obj [("None", .str "No payees were eligible for this round")]

/-- One round object of the `history` command (loop body, lines 101-137). -/
def historyRoundObj (nPayoutDelay : Int) (round : CSmartRewardRound) : RVal :=
  .obj [("rewards_cycle", .num round.number),
        ("start_blockheight", .num round.startBlockHeight),
        ("start_blocktime", .num round.startBlockTime),
        ("end_blockheight", .num round.endBlockHeight),
        ("end_blocktime", .num round.endBlockTime),
        ("eligible_addresses", .num (if round.eligibleEntries - round.disqualifiedEntries > 0 then round.eligibleEntries - round.disqualifiedEntries else 0)),
        ("eligible_smart", .rat (format (if round.eligibleSmart - round.disqualifiedSmart > 0 then round.eligibleSmart - round.disqualifiedSmart else 0))),
        ("disqualified_addresses", .num round.disqualifiedEntries),
        ("disqualified_smart", .rat (format round.disqualifiedSmart)),
        ("rewards", .rat (format round.rewards)),
        ("percent", .rat (round.percent * 100)),
        ("payouts", historyPayObj nPayoutDelay round)]

/-- One `{address, reward}` object of the `payouts` command. -/
def payoutObj (payout : CSmartRewardResultEntry) : RVal :=
  .obj [("address", .str payout.entry.id.addr),
        ("reward", .rat (format payout.reward))]

/-- One `{address, balance}` object of the `snapshot` command. -/
def snapshotObj (s : CSmartRewardResultEntry) : RVal :=
  .obj [("address", .str s.entry.id.addr),
        ("balance", .rat (format s.entry.balance))]

/-- The result object of the `check` command. -/
def checkObj (current : CSmartRewardRound) (nFirst : Int) (id : CSmartAddress) (entry : CSmartRewardEntry) : RVal :=
  .obj [("address", .str id.addr),
        ("balance", .rat (format entry.balance)),
        ("balance_eligible", .rat (format entry.balanceEligible)),
        ("is_smartnode", .bool (!entry.smartnodePaymentTxIsNull)),
        ("activated", .bool entry.fActivated),
        ("eligible", .bool (if current.number < nFirst then decide (entry.balanceEligible > 0) else entry.isEligibleResult))]

/-- One object of the `termrewards` listing. -/
def termObj (e : CTermRewardEntry) : RVal :=
  .obj [("address", .str e.address),
        ("tx_hash", .str e.txHashHex),
        ("balance", .rat (format e.balance)),
        ("level", .str e.level),
        ("percent", .rat e.percent),
        ("expires", .num e.expires)]

/-- The per-command body of `smartrewards`, entered once the durable-store
guard is held (lines 58-271 of `smartrewards.cpp`); returns the events it
performs (the `cs_rewardsdb` acquisition is recorded by the dispatcher). -/
def smartrewardsCmd (env : RewardsEnv) (params : List String) (strCommand : String) :
    List Event × Except RPCFailure RVal :=
  if strCommand = "current" then
    if !env.cacheLockAvailable then
      ([.tryLockCache false], .error (.rpcError .RPC_DATABASE_ERROR busyMsg))
    else
      if env.currentRound.number = 0 then
        ([.tryLockCache true, .readCurrentRound], .error (.rpcError .RPC_DATABASE_ERROR noActiveMsg))
      else
        ([.tryLockCache true, .readCurrentRound], .ok (currentObj env.currentRound))
  else if strCommand = "history" then
    if !env.cacheLockAvailable then
      ([.tryLockCache false], .error (.rpcError .RPC_DATABASE_ERROR busyMsg))
    else
      if env.rewardRounds.length = 0 then
        ([.tryLockCache true, .readRounds], .error (.rpcError .RPC_DATABASE_ERROR noFinishedMsg))
      else
        ([.tryLockCache true, .readRounds], .ok (.arr (env.rewardRounds.map (historyRoundObj env.nRewardsPayoutStartDelay))))
  else if strCommand = "payouts" then
    if !env.cacheLockAvailable then
      ([.tryLockCache false], .error (.rpcError .RPC_DATABASE_ERROR busyMsg))
    else
      if env.currentRound.number = 0 then
        ([.tryLockCache true, .readCurrentRound], .error (.rpcError .RPC_DATABASE_ERROR noActiveMsg))
      else
        match params with
        | [_, arg] =>
          match stoi arg with
          | .invalidArgument =>
            ([.tryLockCache true, .readCurrentRound], .error (.rpcError .RPC_INVALID_PARAMETER (roundRangeErr env.currentRound.number)))
          | .outOfRange =>
            ([.tryLockCache true, .readCurrentRound], .error (.rpcError .RPC_INVALID_PARAMETER (roundRangeErr env.currentRound.number)))
          | .ok n =>
            if n < 1 ∨ env.currentRound.number ≤ n then
              ([.tryLockCache true, .readCurrentRound], .error (.rpcError .RPC_INVALID_PARAMETER (roundRangeErr env.currentRound.number)))
            else
              match env.rewardPayouts n with
              | none =>
                ([.tryLockCache true, .readCurrentRound, .readPayouts n], .error (.rpcError .RPC_DATABASE_ERROR fetchFailMsg))
              | some payouts =>
                ([.tryLockCache true, .readCurrentRound, .readPayouts n], .ok (.arr (payouts.map payoutObj)))
        | _ => ([.tryLockCache true, .readCurrentRound], .error (.rpcError .RPC_INVALID_PARAMETER (roundRangeErr env.currentRound.number)))
  else if strCommand = "snapshot" then
    if !env.cacheLockAvailable then
      ([.tryLockCache false], .error (.rpcError .RPC_DATABASE_ERROR busyMsg))
    else
      if env.currentRound.number = 0 then
        ([.tryLockCache true, .readCurrentRound], .error (.rpcError .RPC_DATABASE_ERROR noActiveMsg))
      else
        match params with
        | [_, arg] =>
          match stoi arg with
          | .invalidArgument =>
            ([.tryLockCache true, .readCurrentRound], .error (.rpcError .RPC_INVALID_PARAMETER (roundRangeErr env.currentRound.number)))
          | .outOfRange =>
            ([.tryLockCache true, .readCurrentRound], .error (.rpcError .RPC_INVALID_PARAMETER (roundRangeErr env.currentRound.number)))
          | .ok n =>
            if n < 1 ∨ env.currentRound.number ≤ n then
              ([.tryLockCache true, .readCurrentRound], .error (.rpcError .RPC_INVALID_PARAMETER (roundRangeErr env.currentRound.number)))
            else
              match env.rewardRoundResults n with
              | none =>
                ([.tryLockCache true, .readCurrentRound, .readRoundResults n], .error (.rpcError .RPC_DATABASE_ERROR fetchFailMsg))
              | some results =>
                ([.tryLockCache true, .readCurrentRound, .readRoundResults n], .ok (.arr (results.map snapshotObj)))
        | _ => ([.tryLockCache true, .readCurrentRound], .error (.rpcError .RPC_INVALID_PARAMETER (roundRangeErr env.currentRound.number)))
  else if strCommand = "check" then
    match params with
    | [_, addressString] =>
      if !env.cacheLockAvailable then
        ([.tryLockCache false], .error (.rpcError .RPC_DATABASE_ERROR busyMsg))
      else
        match env.parseAddress addressString with
        | none =>
          ([.tryLockCache true, .readCurrentRound], .error (.rpcError .RPC_DATABASE_ERROR ("Invalid SmartCash address provided: " ++ addressString)))
        | some id =>
          match env.rewardEntry id with
          | none =>
            ([.tryLockCache true, .readCurrentRound, .readRewardEntry], .error (.rpcError .RPC_DATABASE_ERROR "Couldn\x27t find this SmartCash address in the database."))
          | some entry =>
            ([.tryLockCache true, .readCurrentRound, .readRewardEntry], .ok (checkObj env.currentRound env.nFirst_1_3_Round id entry))
    | _ => ([], .error (.rpcError .RPC_INVALID_PARAMETER "SmartCash address required."))
  else
    ([], .ok .null)

/-- The command word: `params[0].get_str()` when present, else empty. -/
def commandOf : List String → String
  | [] => ""
  | c :: _ => c

/-- The `smartrewards` RPC entry point (lines 22-272): extract the command
word, usage check, freshness check, non-blocking `cs_rewardsdb` acquisition,
then the per-command body. -/
def smartrewardsRun (env : RewardsEnv) (params : List String) (fHelp : Bool) :
    List Event × Except RPCFailure RVal :=
  if fHelp ∨ (commandOf params ≠ "current" ∧ commandOf params ≠ "snapshot" ∧ commandOf params ≠ "history" ∧ commandOf params ≠ "check" ∧ commandOf params ≠ "payouts") then
    ([], .error .usage)
  else if !env.fDebug && !env.synced then
    ([], .error (.rpcError .RPC_DATABASE_ERROR staleMsg))
  else if !env.dbLockAvailable then
    ([.tryLockDb false], .error (.rpcError .RPC_DATABASE_ERROR busyMsg))
  else
    (.tryLockDb true :: (smartrewardsCmd env params (commandOf params)).1,
     (smartrewardsCmd env params (commandOf params)).2)

/-- The `termrewards` RPC entry point (lines 274-332). -/
def termrewardsRun (env : RewardsEnv) (fHelp : Bool) :
    List Event × Except RPCFailure RVal :=
  if fHelp then
    ([], .error .usage)
  else if !env.fDebug && !env.synced then
    ([], .error (.rpcError .RPC_DATABASE_ERROR staleMsg))
  else if !env.dbLockAvailable then
    ([.tryLockDb false], .error (.rpcError .RPC_DATABASE_ERROR busyMsgTerm))
  else if !env.cacheLockAvailable then
    ([.tryLockDb true, .tryLockCache false], .error (.rpcError .RPC_DATABASE_ERROR busyMsg))
  else
    match env.termEntries with
    | none =>
      ([.tryLockDb true, .tryLockCache true, .readTermEntries], .error (.rpcError .RPC_DATABASE_ERROR "Failed to get TermRewards entries"))
    | some entries =>
      ([.tryLockDb true, .tryLockCache true, .readTermEntries], .ok (.arr (entries.map termObj)))

/-- Lock-ordering invariant on an event trace: every attempt on the
summary-cache guard is preceded by a successful acquisition of the
durable-store guard. -/
def dbHeldBeforeCache (tr : List Event) : Prop :=
  ∀ l1 b l2, tr = l1 ++ Event.tryLockCache b :: l2 → Event.tryLockDb true ∈ l1

/-- Extract the object of a successful result (`.null` on error). -/
def resultVal : Except RPCFailure RVal → RVal
  | .ok v => v
  | .error _ => .null

/-- Whether a run result is a success. -/
def resultIsOk : Except RPCFailure RVal → Bool
  | .ok _ => true
  | .error _ => false

/-- Concrete in-progress round used by the witnesses: more disqualified
than eligible entries. -/
def roundCur : CSmartRewardRound where
  number := 5
  startBlockHeight := 500
  startBlockTime := 5000
  endBlockHeight := 599
  endBlockTime := 5990
  eligibleEntries := 10
  eligibleSmart := 0
  disqualifiedEntries := 12
  disqualifiedSmart := 0
  rewards := 0
  percent := 0
  nBlockPayees := 1
  nBlockInterval := 1
  payeeCount := 0
  rewardBlocks := 0
  lastRoundBlock := 0

/-- Concrete finished round with `eligibleEntries=10, disqualifiedEntries=12`
and no payees. -/
def roundClamp : CSmartRewardRound where
  number := 3
  startBlockHeight := 300
  startBlockTime := 3000
  endBlockHeight := 399
  endBlockTime := 3990
  eligibleEntries := 10
  eligibleSmart := 0
  disqualifiedEntries := 12
  disqualifiedSmart := 0
  rewards := 0
  percent := 0
  nBlockPayees := 1
  nBlockInterval := 1
  payeeCount := 0
  rewardBlocks := 0
  lastRoundBlock := 0

/-- Concrete finished round with seven payees paid two per block. -/
def roundPay : CSmartRewardRound where
  number := 4
  startBlockHeight := 400
  startBlockTime := 4000
  endBlockHeight := 499
  endBlockTime := 4990
  eligibleEntries := 9
  eligibleSmart := 0
  disqualifiedEntries := 2
  disqualifiedSmart := 0
  rewards := 0
  percent := 0
  nBlockPayees := 2
  nBlockInterval := 55
  payeeCount := 7
  rewardBlocks := 4
  lastRoundBlock := 864

/-- Concrete entry on which the two eligibility rules disagree:
`balanceEligible = 0` (balance rule says not eligible) but
`IsEligible()` returns `true`. -/
def entryGood : CSmartRewardEntry where
  id := ⟨"GOOD"⟩
  balance := 0
  balanceEligible := 0
  smartnodePaymentTxIsNull := true
  fActivated := false
  isEligibleResult := true

/-- Concrete payout/snapshot result row. -/
def resultRow : CSmartRewardResultEntry where
  entry := entryGood
  reward := 150000000

/-- Concrete term-reward position. -/
def termEntry1 : CTermRewardEntry where
  address := "T1"
  txHashHex := "ab"
  balance := 300000000
  level := "2_years"
  percent := 33 / 100
  expires := 999

/-- Fully-available environment: synced, both guards free, current round 5,
two finished rounds, payout/snapshot lists stored for round 3 only, every
address resolving to `entryGood`, one term-reward entry.  The eligibility
version threshold is 6, one above the current round. -/
def Eready : RewardsEnv where
  fDebug := true
  synced := true
  dbLockAvailable := true
  cacheLockAvailable := true
  currentRound := roundCur
  rewardRounds := [roundClamp, roundPay]
  nRewardsPayoutStartDelay := 200
  nFirst_1_3_Round := 6
  rewardPayouts := fun n => if n = 3 then some [resultRow] else none
  rewardRoundResults := fun n => if n = 3 then some [resultRow] else none
  parseAddress := fun s => if s = "GOOD" then some ⟨"GOOD"⟩ else none
  rewardEntry := fun _ => some entryGood
  termEntries := some [termEntry1]

/-- `Eready` with the version threshold equal to the current round number. -/
def Ethresh : RewardsEnv := { Eready with nFirst_1_3_Round := 5 }

/-- `Eready` with the durable-store guard already held elsewhere. -/
def Ebusy : RewardsEnv := { Eready with dbLockAvailable := false }

/-- `Eready` with an uninitialized current round (`number = 0`). -/
def Ezero : RewardsEnv := { Eready with currentRound := { roundCur with number := 0 } }

/-- `Eready` with a failing term-reward entry read. -/
def Enone : RewardsEnv := { Eready with termEntries := none }

theorem format_eq_div (a : Int) : format a = (a : ℚ) / ((COIN : Int) : ℚ) := by
  have h := Int.tdiv_add_tmod a COIN
  have hC : ((COIN : Int) : ℚ) ≠ 0 := by norm_num [COIN]
  have h2 : ((COIN : Int) : ℚ) * ((Int.tdiv a COIN : Int) : ℚ) + ((Int.tmod a COIN : Int) : ℚ) = (a : ℚ) := by
    exact_mod_cast congrArg (fun z : Int => (z : ℚ)) h
  field_simp [format]
  linarith [h2]

theorem format_nonneg {a : Int} (h : 0 ≤ a) : 0 ≤ format a := by
  have h1 : (0 : Int) ≤ Int.tdiv a COIN := Int.tdiv_nonneg h (by norm_num [COIN])
  have h2 : (0 : Int) ≤ Int.tmod a COIN := Int.tmod_nonneg COIN h
  have hC : (0 : ℚ) < ((COIN : Int) : ℚ) := by norm_num [COIN]
  have hq : (0 : ℚ) ≤ ((Int.tmod a COIN : Int) : ℚ) / ((COIN : Int) : ℚ) :=
    div_nonneg (by exact_mod_cast h2) (le_of_lt hC)
  have h1q : (0 : ℚ) ≤ ((Int.tdiv a COIN : Int) : ℚ) := by exact_mod_cast h1
  have : (0 : ℚ) ≤ ((Int.tdiv a COIN : Int) : ℚ) + ((Int.tmod a COIN : Int) : ℚ) / ((COIN : Int) : ℚ) := by
    linarith
  simpa [format] using this

theorem dbHeldBeforeCache_nil : dbHeldBeforeCache [] := by
  intro l1 b l2 h
  exact absurd h (by simp)

theorem dbHeldBeforeCache_dbfail : dbHeldBeforeCache [Event.tryLockDb false] := by
  intro l1 b l2 h
  rcases l1 with _ | ⟨x, l1⟩ <;> simp at h

theorem dbHeldBeforeCache_cons (tl : List Event) :
    dbHeldBeforeCache (Event.tryLockDb true :: tl) := by
  intro l1 b l2 h
  rcases l1 with _ | ⟨x, l1⟩
  · simp at h
  · simp at h
    simp [← h.1]

/-- C8: for every non-negative integer amount `a`, the formatter satisfies
the spec formula `format(a) = integerPart(a) + fractionalPart(a)/COIN`,
equals the exact quotient `a / COIN`, and is never negative.  `format` is a
total function of `a`, so it cannot throw on any such input. -/
theorem format_decomposition (a : Int) (h : 0 ≤ a) :
    format a = formatSpec a ∧ format a = (a : ℚ) / ((COIN : Int) : ℚ) ∧ 0 ≤ format a := by
  have hC : (0 : Int) ≤ COIN := by norm_num [COIN]
  have hdiv : Int.tdiv a COIN = a / COIN := Int.tdiv_eq_ediv h hC
  have hmod : Int.tmod a COIN = a % COIN := Int.tmod_eq_emod h hC
  refine ⟨?_, format_eq_div a, format_nonneg h⟩
  simp [format, formatSpec, integerPartSpec, fractionalPartSpec, hdiv, hmod]

/-- C8 witness: the statement instantiated at `a = 250000000`. -/
theorem format_decomposition_witness :
    (0 : Int) ≤ 250000000 ∧
    (format 250000000 = formatSpec 250000000 ∧
     format 250000000 = ((250000000 : Int) : ℚ) / ((COIN : Int) : ℚ) ∧
     0 ≤ format 250000000) :=
  ⟨by decide, format_decomposition 250000000 (by decide)⟩

/-- C1: with the freshness gate passed, if the durable-store guard
(`cs_rewardsdb`) cannot be acquired on its single non-blocking attempt, every
recognized `smartrewards` command and the `termrewards` listing fail
immediately with the busy `RPC_DATABASE_ERROR`; the event trace is exactly
one failed acquisition attempt — no round, entry, or result data is read and
the acquisition is never retried. -/
theorem busy_fail_fast (env : RewardsEnv) (cmd : String) (rest : List String)
    (hcmd : cmd = "current" ∨ cmd = "history" ∨ cmd = "payouts" ∨ cmd = "snapshot" ∨ cmd = "check")
    (hsync : env.fDebug = true ∨ env.synced = true)
    (hdb : env.dbLockAvailable = false) :
    smartrewardsRun env (cmd :: rest) false =
      ([Event.tryLockDb false], .error (.rpcError .RPC_DATABASE_ERROR busyMsg)) ∧
    termrewardsRun env false =
      ([Event.tryLockDb false], .error (.rpcError .RPC_DATABASE_ERROR busyMsgTerm)) := by
  constructor
  · rcases hcmd with h|h|h|h|h <;> rcases hsync with hs|hs <;>
      simp [smartrewardsRun, commandOf, h, hs, hdb]
  · rcases hsync with hs|hs <;> simp [termrewardsRun, hs, hdb]

/-- C1 witness: the statement instantiated at `Ebusy` and the `current`
command. -/
theorem busy_fail_fast_witness :
    ("current" = "current" ∨ "current" = "history" ∨ "current" = "payouts" ∨
      "current" = "snapshot" ∨ "current" = "check") ∧
    (Ebusy.fDebug = true ∨ Ebusy.synced = true) ∧
    Ebusy.dbLockAvailable = false ∧
    (smartrewardsRun Ebusy ["current"] false =
       ([Event.tryLockDb false], .error (.rpcError .RPC_DATABASE_ERROR busyMsg)) ∧
     termrewardsRun Ebusy false =
       ([Event.tryLockDb false], .error (.rpcError .RPC_DATABASE_ERROR busyMsgTerm))) :=
  ⟨Or.inl rfl, Or.inl rfl, rfl,
   busy_fail_fast Ebusy "current" [] (Or.inl rfl) (Or.inl rfl) rfl⟩

/-- C6: on every execution path of `smartrewards` (any parameters, any help
flag) and of `termrewards`, the summary-cache guard is only ever attempted
after the durable-store guard has been successfully acquired: in the event
trace, any `tryLockCache` is preceded by `tryLockDb true`. -/
theorem lock_ordering (env : RewardsEnv) (params : List String) (fHelp : Bool) :
    dbHeldBeforeCache (smartrewardsRun env params fHelp).1 ∧
    dbHeldBeforeCache (termrewardsRun env fHelp).1 := by
  constructor
  · unfold smartrewardsRun
    split
    · exact dbHeldBeforeCache_nil
    · split
      · exact dbHeldBeforeCache_nil
      · split
        · exact dbHeldBeforeCache_dbfail
        · exact dbHeldBeforeCache_cons _
  · unfold termrewardsRun
    split
    · exact dbHeldBeforeCache_nil
    · split
      · exact dbHeldBeforeCache_nil
      · split
        · exact dbHeldBeforeCache_dbfail
        · split
          · exact dbHeldBeforeCache_cons _
          · split
            · exact dbHeldBeforeCache_cons _
            · exact dbHeldBeforeCache_cons _

/-- C6 witness: the `current` run on `Eready` attempts the cache guard in
second position, and the theorem instantiated there places `tryLockDb true`
before it. -/
theorem lock_ordering_witness :
    Event.tryLockDb true ∈ ([Event.tryLockDb true] : List Event) :=
  (lock_ordering Eready ["current"] false).1
    [Event.tryLockDb true] true [Event.readCurrentRound] rfl

/-- C2: with the gates passed and `current` the current round number, the
`payouts` run on a round argument is rejected with the uniform
`RPC_INVALID_PARAMETER` error carrying the range `[1, current-1]` exactly
when the argument does not `stoi`-parse to an integer in `[1, current-1]`;
the `snapshot` run is rejected in exactly the same cases with exactly the
same error; and the error message spells out the valid range. -/
theorem round_range_validation (env : RewardsEnv) (arg : String)
    (hsync : env.fDebug = true ∨ env.synced = true)
    (hdb : env.dbLockAvailable = true)
    (hcache : env.cacheLockAvailable = true)
    (hn : 0 < env.currentRound.number) :
    ((smartrewardsRun env ["payouts", arg] false).2 =
        .error (.rpcError .RPC_INVALID_PARAMETER (roundRangeErr env.currentRound.number)) ↔
      ¬ ∃ n, stoi arg = .ok n ∧ 1 ≤ n ∧ n < env.currentRound.number) ∧
    ((smartrewardsRun env ["snapshot", arg] false).2 =
        .error (.rpcError .RPC_INVALID_PARAMETER (roundRangeErr env.currentRound.number)) ↔
      (smartrewardsRun env ["payouts", arg] false).2 =
        .error (.rpcError .RPC_INVALID_PARAMETER (roundRangeErr env.currentRound.number))) ∧
    roundRangeErr env.currentRound.number =
      "Past SmartReward round required: 1 - " ++ toString (env.currentRound.number - 1) ++ " " := by
  have hn0 : ¬ env.currentRound.number = 0 := by omega
  have hpay : (smartrewardsRun env ["payouts", arg] false).2 =
      (smartrewardsCmd env ["payouts", arg] "payouts").2 := by
    rcases hsync with hs|hs <;> simp [smartrewardsRun, commandOf, hs, hdb]
  have hsnap : (smartrewardsRun env ["snapshot", arg] false).2 =
      (smartrewardsCmd env ["snapshot", arg] "snapshot").2 := by
    rcases hsync with hs|hs <;> simp [smartrewardsRun, commandOf, hs, hdb]
  refine ⟨?_, ?_, rfl⟩
  · rw [hpay]
    cases hst : stoi arg with
    | ok n =>
      by_cases hr : n < 1 ∨ env.currentRound.number ≤ n
      · simp [smartrewardsCmd, hcache, hn0, hst, hr]
        omega
      · rcases hfetch : env.rewardPayouts n with _ | ps <;>
          simp [smartrewardsCmd, hcache, hn0, hst, hr, hfetch] <;>
          omega
    | invalidArgument =>
      simp [smartrewardsCmd, hcache, hn0, hst]
    | outOfRange =>
      simp [smartrewardsCmd, hcache, hn0, hst]
  · rw [hpay, hsnap]
    cases hst : stoi arg with
    | ok n =>
      by_cases hr : n < 1 ∨ env.currentRound.number ≤ n
      · simp [smartrewardsCmd, hcache, hn0, hst, hr]
      · rcases hfetch : env.rewardPayouts n with _ | ps <;>
          rcases hfetch2 : env.rewardRoundResults n with _ | rs <;>
          simp [smartrewardsCmd, hcache, hn0, hst, hr, hfetch, hfetch2]
    | invalidArgument =>
      simp [smartrewardsCmd, hcache, hn0, hst]
    | outOfRange =>
      simp [smartrewardsCmd, hcache, hn0, hst]

/-- C2 witness: on `Eready` (current round 5), the argument `"0"` is
rejected with the range error while `"3"` is not. -/
theorem round_range_validation_witness :
    (Eready.fDebug = true ∨ Eready.synced = true) ∧
    Eready.dbLockAvailable = true ∧
    Eready.cacheLockAvailable = true ∧
    0 < Eready.currentRound.number ∧
    (smartrewardsRun Eready ["payouts", "0"] false).2 =
      .error (.rpcError .RPC_INVALID_PARAMETER (roundRangeErr Eready.currentRound.number)) ∧
    ¬ (smartrewardsRun Eready ["payouts", "3"] false).2 =
      .error (.rpcError .RPC_INVALID_PARAMETER (roundRangeErr Eready.currentRound.number)) :=
  ⟨Or.inl rfl, rfl, rfl, by decide,
   (round_range_validation Eready "0" (Or.inl rfl) rfl rfl (by decide)).1.mpr
     (by
       rintro ⟨n, hn, h1, h2⟩
       have h0 : stoi "0" = .ok 0 := by decide
       rw [h0] at hn
       injection hn with hh
       omega),
   fun h =>
     ((round_range_validation Eready "3" (Or.inl rfl) rfl rfl (by decide)).1.mp h)
       ⟨3, by decide, by decide, by decide⟩⟩

/-- C10: an argument whose `stoi` parse yields an in-range integer `n` is
accepted by both `payouts` and `snapshot` — even when the string carries
trailing non-numeric characters — with `n` (the parsed integer prefix)
taken as the requested round: the run reads exactly the result data of
round `n` and, when the store has that list, succeeds with it. -/
theorem stoi_prefix_round_accepted (env : RewardsEnv) (arg : String) (n : Int)
    (hsync : env.fDebug = true ∨ env.synced = true)
    (hdb : env.dbLockAvailable = true)
    (hcache : env.cacheLockAvailable = true)
    (hst : stoi arg = .ok n)
    (h1 : 1 ≤ n) (h2 : n < env.currentRound.number) :
    (smartrewardsRun env ["payouts", arg] false).1 =
      [Event.tryLockDb true, Event.tryLockCache true, Event.readCurrentRound, Event.readPayouts n] ∧
    (∀ ps, env.rewardPayouts n = some ps →
      (smartrewardsRun env ["payouts", arg] false).2 = .ok (.arr (ps.map payoutObj))) ∧
    (smartrewardsRun env ["snapshot", arg] false).1 =
      [Event.tryLockDb true, Event.tryLockCache true, Event.readCurrentRound, Event.readRoundResults n] ∧
    (∀ rs, env.rewardRoundResults n = some rs →
      (smartrewardsRun env ["snapshot", arg] false).2 = .ok (.arr (rs.map snapshotObj))) := by
  have hn0 : ¬ env.currentRound.number = 0 := by omega
  have hr : ¬ (n < 1 ∨ env.currentRound.number ≤ n) := by omega
  refine ⟨?_, ?_, ?_, ?_⟩
  · rcases hfetch : env.rewardPayouts n with _ | ps <;>
      rcases hsync with hs|hs <;>
      simp [smartrewardsRun, commandOf, smartrewardsCmd, hs, hdb, hcache, hn0, hst, hr, hfetch]
  · intro ps hfetch
    rcases hsync with hs|hs <;>
      simp [smartrewardsRun, commandOf, smartrewardsCmd, hs, hdb, hcache, hn0, hst, hr, hfetch]
  · rcases hfetch : env.rewardRoundResults n with _ | rs <;>
      rcases hsync with hs|hs <;>
      simp [smartrewardsRun, commandOf, smartrewardsCmd, hs, hdb, hcache, hn0, hst, hr, hfetch]
  · intro rs hfetch
    rcases hsync with hs|hs <;>
      simp [smartrewardsRun, commandOf, smartrewardsCmd, hs, hdb, hcache, hn0, hst, hr, hfetch]

/-- C10 witness: on `Eready` (current round 5), `"3abc"` parses to 3 via
`stoi` and the `payouts` run reads round 3 and succeeds with its list. -/
theorem stoi_prefix_round_accepted_witness :
    stoi "3abc" = .ok 3 ∧ (1 : Int) ≤ 3 ∧ (3 : Int) < Eready.currentRound.number ∧
    (smartrewardsRun Eready ["payouts", "3abc"] false).1 =
      [Event.tryLockDb true, Event.tryLockCache true, Event.readCurrentRound, Event.readPayouts 3] ∧
    (smartrewardsRun Eready ["payouts", "3abc"] false).2 =
      .ok (.arr ([resultRow].map payoutObj)) :=
  ⟨by decide, by decide, by decide,
   (stoi_prefix_round_accepted Eready "3abc" 3 (Or.inl rfl) rfl rfl (by decide)
      (by decide) (by decide)).1,
   (stoi_prefix_round_accepted Eready "3abc" 3 (Or.inl rfl) rfl rfl (by decide)
      (by decide) (by decide)).2.1 [resultRow] rfl⟩

/-- C3 counterexample: on `Ezero`, whose current round has `number = 0`, the
`check` command does not short-circuit with the NotReady error — it reads
the entry and succeeds, refuting the claim that the round-zero gate covers
the address-check command. -/
theorem check_runs_at_round_zero :
    Ezero.currentRound.number = 0 ∧
    resultIsOk (smartrewardsRun Ezero ["check", "GOOD"] false).2 = true :=
  ⟨rfl, rfl⟩

/-- C3 (amended): every query that both needs the current round and guards
it — the `current`, `payouts` and `snapshot` commands — short-circuits with
the NotReady error when the current round number is 0, regardless of the
round's other fields; the address-check command also reads the current
round but performs no such short-circuit. -/
theorem notready_short_circuit (env : RewardsEnv) (rest : List String)
    (hsync : env.fDebug = true ∨ env.synced = true)
    (hdb : env.dbLockAvailable = true)
    (hcache : env.cacheLockAvailable = true)
    (h0 : env.currentRound.number = 0) :
    (smartrewardsRun env ["current"] false).2 =
      .error (.rpcError .RPC_DATABASE_ERROR noActiveMsg) ∧
    (smartrewardsRun env ("payouts" :: rest) false).2 =
      .error (.rpcError .RPC_DATABASE_ERROR noActiveMsg) ∧
    (smartrewardsRun env ("snapshot" :: rest) false).2 =
      .error (.rpcError .RPC_DATABASE_ERROR noActiveMsg) := by
  refine ⟨?_, ?_, ?_⟩ <;> rcases hsync with hs|hs <;>
    simp [smartrewardsRun, commandOf, smartrewardsCmd, hs, hdb, hcache, h0]

/-- C3 witness: the amended statement instantiated on `Ezero`. -/
theorem notready_short_circuit_witness :
    Ezero.currentRound.number = 0 ∧
    (smartrewardsRun Ezero ["current"] false).2 =
      .error (.rpcError .RPC_DATABASE_ERROR noActiveMsg) ∧
    (smartrewardsRun Ezero ["payouts", "1"] false).2 =
      .error (.rpcError .RPC_DATABASE_ERROR noActiveMsg) :=
  ⟨rfl, (notready_short_circuit Ezero ["1"] (Or.inl rfl) rfl rfl rfl).1,
   (notready_short_circuit Ezero ["1"] (Or.inl rfl) rfl rfl rfl).2.1⟩

/-- C4 counterexample: on `Eready`, whose current round has
`eligibleEntries = 10` and `disqualifiedEntries = 12`, the current-cycle
handler emits `eligible_addresses = -2`: the caller does not clamp the
negative aggregate there, refuting the claim for the current-cycle
handler. -/
theorem current_emits_negative_eligible :
    Eready.currentRound.eligibleEntries = 10 ∧
    Eready.currentRound.disqualifiedEntries = 12 ∧
    RVal.getKey (resultVal (smartrewardsRun Eready ["current"] false).2) "eligible_addresses" =
      some (.num (-2)) :=
  ⟨rfl, rfl, rfl⟩

/-- C4 (amended): in the history handler the caller clamps a negative
eligible difference to zero before emission/formatting, so history never
emits a negative `eligible_addresses` or a formatted negative eligible
amount; the clamping is never inside the formatter (which maps negative
amounts to negative values); the current-cycle handler, however, emits the
unclamped differences. -/
theorem history_clamps_nonneg (env : RewardsEnv)
    (hsync : env.fDebug = true ∨ env.synced = true)
    (hdb : env.dbLockAvailable = true)
    (hcache : env.cacheLockAvailable = true)
    (hne : ¬ env.rewardRounds.length = 0) :
    (smartrewardsRun env ["history"] false).2 =
      .ok (.arr (env.rewardRounds.map (historyRoundObj env.nRewardsPayoutStartDelay))) ∧
    (∀ round ∈ env.rewardRounds,
      RVal.getKey (historyRoundObj env.nRewardsPayoutStartDelay round) "eligible_addresses" =
        some (.num (if round.eligibleEntries - round.disqualifiedEntries > 0
          then round.eligibleEntries - round.disqualifiedEntries else 0)) ∧
      RVal.getKey (historyRoundObj env.nRewardsPayoutStartDelay round) "eligible_smart" =
        some (.rat (format (if round.eligibleSmart - round.disqualifiedSmart > 0
          then round.eligibleSmart - round.disqualifiedSmart else 0))) ∧
      (0 : Int) ≤ (if round.eligibleEntries - round.disqualifiedEntries > 0
          then round.eligibleEntries - round.disqualifiedEntries else 0) ∧
      (0 : ℚ) ≤ format (if round.eligibleSmart - round.disqualifiedSmart > 0
          then round.eligibleSmart - round.disqualifiedSmart else 0)) ∧
    format (-COIN) < 0 := by
  refine ⟨?_, ?_, ?_⟩
  · rcases hsync with hs|hs <;>
      simp [smartrewardsRun, commandOf, smartrewardsCmd, hs, hdb, hcache, hne]
  · intro round _
    refine ⟨rfl, rfl, ?_, ?_⟩
    · split <;> omega
    · apply format_nonneg
      split <;> omega
  · rw [format_eq_div]
    have : ((-COIN : Int) : ℚ) = -100000000 := by norm_num [COIN]
    rw [this]
    norm_num [COIN]

/-- C4 witness: the amended statement on `Eready`, whose history contains a
round with `eligibleEntries = 10, disqualifiedEntries = 12`: the emitted
`eligible_addresses` is 0. -/
theorem history_clamps_nonneg_witness :
    roundClamp.eligibleEntries = 10 ∧
    roundClamp.disqualifiedEntries = 12 ∧
    RVal.getKey (historyRoundObj Eready.nRewardsPayoutStartDelay roundClamp) "eligible_addresses" =
      some (.num 0) ∧
    format (-COIN) < 0 :=
  ⟨rfl, rfl,
   (history_clamps_nonneg Eready (Or.inl rfl) rfl rfl (by decide)).2.1 roundClamp
     (List.Mem.head _) |>.1,
   (history_clamps_nonneg Eready (Or.inl rfl) rfl rfl (by decide)).2.2⟩

/-- C5: the `check` command builds its result from the versioned rule at
the protocol threshold `nRewardsFirst_1_3_Round`: when the current round
number is strictly below the threshold, the emitted `eligible` flag is
`balanceEligible > 0`; when it is at or above the threshold, it is the
entry's own `IsEligible()` predicate — whatever the entry's fields are. -/
theorem check_versioned_eligibility (env : RewardsEnv) (addrStr : String)
    (id : CSmartAddress) (entry : CSmartRewardEntry)
    (hsync : env.fDebug = true ∨ env.synced = true)
    (hdb : env.dbLockAvailable = true)
    (hcache : env.cacheLockAvailable = true)
    (hparse : env.parseAddress addrStr = some id)
    (hentry : env.rewardEntry id = some entry) :
    (smartrewardsRun env ["check", addrStr] false).2 =
      .ok (checkObj env.currentRound env.nFirst_1_3_Round id entry) ∧
    (env.currentRound.number < env.nFirst_1_3_Round →
      RVal.getKey (checkObj env.currentRound env.nFirst_1_3_Round id entry) "eligible" =
        some (.bool (decide (entry.balanceEligible > 0)))) ∧
    (env.nFirst_1_3_Round ≤ env.currentRound.number →
      RVal.getKey (checkObj env.currentRound env.nFirst_1_3_Round id entry) "eligible" =
        some (.bool entry.isEligibleResult)) := by
  refine ⟨?_, ?_, ?_⟩
  · rcases hsync with hs|hs <;>
      simp [smartrewardsRun, commandOf, smartrewardsCmd, hs, hdb, hcache, hparse, hentry]
  · intro h
    simp [checkObj, RVal.getKey, List.lookup, if_pos h]
  · intro h
    simp [checkObj, RVal.getKey, List.lookup, if_neg (not_lt.mpr h)]

/-- C5 witness: `entryGood` has `balanceEligible = 0` but `IsEligible()`
true, so the two rules disagree; on `Eready` (round 5, threshold 6) the
balance rule governs, on `Ethresh` (round 5, threshold 5) the predicate
governs. -/
theorem check_versioned_eligibility_witness :
    Eready.currentRound.number = Eready.nFirst_1_3_Round - 1 ∧
    Ethresh.currentRound.number = Ethresh.nFirst_1_3_Round ∧
    entryGood.balanceEligible = 0 ∧
    entryGood.isEligibleResult = true ∧
    RVal.getKey (checkObj Eready.currentRound Eready.nFirst_1_3_Round ⟨"GOOD"⟩ entryGood) "eligible" =
      some (.bool (decide (entryGood.balanceEligible > 0))) ∧
    RVal.getKey (checkObj Ethresh.currentRound Ethresh.nFirst_1_3_Round ⟨"GOOD"⟩ entryGood) "eligible" =
      some (.bool entryGood.isEligibleResult) :=
  ⟨rfl, rfl, rfl, rfl,
   (check_versioned_eligibility Eready "GOOD" ⟨"GOOD"⟩ entryGood (Or.inl rfl) rfl rfl
      (by decide) rfl).2.1 (by decide),
   (check_versioned_eligibility Ethresh "GOOD" ⟨"GOOD"⟩ entryGood (Or.inl rfl) rfl rfl
      (by decide) rfl).2.2 (by decide)⟩

/-- C7: every round object emitted by the history handler carries the
nested payout-schedule object under the `payouts` key: when the round's
payee count is nonzero it holds `firstBlock = endBlockHeight + delay`,
`totalBlocks`, `lastBlock`, `totalPayees`, `blockPayees`,
`lastBlockPayees = payeeCount mod blockPayees` and `blockInterval`; when
the payee count is zero it holds the explanatory placeholder instead of
being omitted. -/
theorem history_payout_schedule (env : RewardsEnv)
    (hsync : env.fDebug = true ∨ env.synced = true)
    (hdb : env.dbLockAvailable = true)
    (hcache : env.cacheLockAvailable = true)
    (hne : ¬ env.rewardRounds.length = 0) :
    (smartrewardsRun env ["history"] false).2 =
      .ok (.arr (env.rewardRounds.map (historyRoundObj env.nRewardsPayoutStartDelay))) ∧
    (∀ round ∈ env.rewardRounds,
      RVal.getKey (historyRoundObj env.nRewardsPayoutStartDelay round) "payouts" =
        some (historyPayObj env.nRewardsPayoutStartDelay round) ∧
      (¬ round.payeeCount = 0 →
        historyPayObj env.nRewardsPayoutStartDelay round =
          .obj [("firstBlock", .num (round.endBlockHeight + env.nRewardsPayoutStartDelay)),
                ("totalBlocks", .num round.rewardBlocks),
                ("lastBlock", .num round.lastRoundBlock),
                ("totalPayees", .num round.payeeCount),
                ("blockPayees", .num round.nBlockPayees),
                ("lastBlockPayees", .num (Int.tmod round.payeeCount round.nBlockPayees)),
                ("blockInterval", .num round.nBlockInterval)]) ∧
      (round.payeeCount = 0 →
        historyPayObj env.nRewardsPayoutStartDelay round =
          .obj [("None", .str "No payees were eligible for this round")])) := by
  constructor
  · rcases hsync with hs|hs <;>
      simp [smartrewardsRun, commandOf, smartrewardsCmd, hs, hdb, hcache, hne]
  · intro round _
    refine ⟨rfl, ?_, ?_⟩
    · intro h
      simp [historyPayObj, h]
    · intro h
      simp [historyPayObj, h]

/-- C7 witness: on `Eready`, the round with 7 payees paid 2 per block gets
the full schedule (`firstBlock = 499 + 200`, `lastBlockPayees = 1`) and the
round with no payees gets the placeholder. -/
theorem history_payout_schedule_witness :
    roundPay.payeeCount = 7 ∧
    roundClamp.payeeCount = 0 ∧
    historyPayObj Eready.nRewardsPayoutStartDelay roundPay =
      .obj [("firstBlock", .num 699),
            ("totalBlocks", .num 4),
            ("lastBlock", .num 864),
            ("totalPayees", .num 7),
            ("blockPayees", .num 2),
            ("lastBlockPayees", .num 1),
            ("blockInterval", .num 55)] ∧
    historyPayObj Eready.nRewardsPayoutStartDelay roundClamp =
      .obj [("None", .str "No payees were eligible for this round")] :=
  ⟨rfl, rfl,
   (history_payout_schedule Eready (Or.inl rfl) rfl rfl (by decide)).2 roundPay
     (List.Mem.tail _ (List.Mem.head _)) |>.2.1 (by decide),
   (history_payout_schedule Eready (Or.inl rfl) rfl rfl (by decide)).2 roundClamp
     (List.Mem.head _) |>.2.2 rfl⟩

/-- C9: once the gates are passed, the term-rewards listing fails exactly
when the read of the term-reward entry map fails; when the read succeeds —
including with an empty map — it succeeds, emitting one object per entry in
the store's iteration order. -/
theorem termrewards_read_failure (env : RewardsEnv)
    (hsync : env.fDebug = true ∨ env.synced = true)
    (hdb : env.dbLockAvailable = true)
    (hcache : env.cacheLockAvailable = true) :
    ((∃ e, (termrewardsRun env false).2 = .error e) ↔ env.termEntries = none) ∧
    (∀ es, env.termEntries = some es →
      (termrewardsRun env false).2 = .ok (.arr (es.map termObj))) := by
  rcases hterm : env.termEntries with _ | es <;>
    rcases hsync with hs|hs <;>
    simp [termrewardsRun, hs, hdb, hcache, hterm]

/-- C9 witness: on `Enone` (failing read) the listing errors; on `Eready`
the one-entry map yields the one-object array; an empty map would likewise
succeed with an empty array. -/
theorem termrewards_read_failure_witness :
    (∃ e, (termrewardsRun Enone false).2 = .error e) ∧
    (termrewardsRun Eready false).2 = .ok (.arr ([termEntry1].map termObj)) :=
  ⟨(termrewards_read_failure Enone (Or.inl rfl) rfl rfl).1.mpr rfl,
   (termrewards_read_failure Eready (Or.inl rfl) rfl rfl).2 [termEntry1] rfl⟩

end SmartRewards
